import Mathlib

/-!
Shallow embedding of the remote-tensor memory layer
(`src/torch_remote/csrc/RemoteMem.cpp`, declarations in
`src/mycelya_torch/csrc/Remote.h`).

The C++ module implements an ID-based allocator for a PyTorch
`PrivateUse1` ("remote") device: storage handles (`storage_id_t`, a
`uint64_t`) are minted by a Python-side backend and stored bit-identically
in the tensor's data pointer; all real memory operations are delegated to
named Python callbacks reached through `get_method`.

Modelling conventions:
- The Python callback surface is a `Backend` record.  Each callback may
  raise a Python exception, modelled as `Except PyExn`.
- Every operation returns its result together with the list of backend
  callbacks it issued (`List Call`), in order.  This makes claims such as
  "calls create-storage with exactly (handle, nbytes, device index)" and
  "issues zero remote-backend calls" directly statable.
- `reinterpret_cast` between `storage_id_t` (`uint64_t`) and `void*`
  (64-bit pointer) is value truncation to 64 bits, written `% 2 ^ 64`.
- `TORCH_CHECK` failures become `RemoteError` values carrying the data
  that the C++ message interpolates; `torchCheckMsg` rebuilds the exact
  message pieces.
- device indices (`c10::DeviceIndex`) are modelled as `Int`; byte counts
  (`size_t`) as `Nat`.
-/

namespace RemoteMem

/-- A Python-side exception escaping a callback (pybind11 `error_already_set`
or a failed `cast`). Its payload is irrelevant to the C++ code. -/
abbrev PyExn := String

/-- `c10::DeviceType`, restricted to the cases the module distinguishes:
the remote type `PrivateUse1` versus everything else. -/
inductive DeviceType where
  | privateUse1
  | cpu
  | cuda
deriving DecidableEq

/-- `c10::Device`: a device type and an index (`c10::DeviceIndex`). -/
structure Device where
  type : DeviceType
  index : Int
deriving DecidableEq

/-- `at::Layout`, restricted to the values the checks distinguish. -/
inductive Layout where
  | strided
  | sparse
  | sparseCsr
deriving DecidableEq

/-- `at::MemoryFormat`. -/
inductive MemoryFormat where
  | contiguous
  | channelsLast
deriving DecidableEq

/-- `at::ScalarType` (a representative subset). -/
inductive ScalarType where
  | float32
  | float64
  | int32
  | int64
  | uint8
deriving DecidableEq

/-- Element width in bytes of a scalar type. -/
def ScalarType.itemsize : ScalarType → Nat
  | .float32 => 4
  | .float64 => 8
  | .int32 => 4
  | .int64 => 8
  | .uint8 => 1

/-- The Python callback surface reached through `get_method` (§6 of the
design: generate-storage-id, create-storage, free-storage,
copy-data-by-id, get-device, device-count).  Each callback may raise. -/
structure Backend where
  getDevice : Except PyExn Int
  generateStorageId : Except PyExn Nat
  createStorage : Nat → Nat → Int → Except PyExn Bool
  freeStorage : Nat → Except PyExn Unit
  copyDataById : Nat → Nat → Nat → Except PyExn Unit
  deviceCount : Except PyExn Int

/-- One backend callback invocation, with the arguments passed. -/
inductive Call where
  | getDevice
  | generateStorageId
  | createStorage (storage_id : Nat) (nbytes : Nat) (device_index : Int)
  | freeStorage (storage_id : Nat)
  | copyDataById (dest_id : Nat) (src_id : Nat) (count : Nat)
  | deviceCount
deriving DecidableEq

/-- `TORCH_CHECK` failure sites of the module, carrying the values the
C++ message interpolates, plus a propagated Python exception. -/
inductive RemoteError where
  | allocationError (storage_id : Nat) (nbytes : Nat) (device_index : Int)
  | invalidDeviceError (device_index : Int)
  | unsupportedLayoutError
  | unsupportedFeatureError
  | preconditionError
  | callbackExn (e : PyExn)
deriving DecidableEq

/-- The message pieces each `TORCH_CHECK` site passes, in order, exactly
as written in the C++ source. -/
def torchCheckMsg : RemoteError → List String
  | .allocationError storage_id nbytes device_index =>
      ["Failed to allocate storage with ID ", toString storage_id,
       " (", toString nbytes, " bytes) on remote device ",
       toString device_index]
  | .invalidDeviceError device_index =>
      ["Invalid device index: ", toString device_index]
  | .unsupportedLayoutError => ["Only strided layout is supported"]
  | .unsupportedFeatureError => ["Pin memory is not supported on remote devices"]
  | .preconditionError => ["as_strided_remote expects a remote tensor"]
  | .callbackExn e => [e]

/-- `reinterpret_cast<void*>(storage_id)` — a `uint64_t` stored as a
64-bit pointer, value-preserving below `2 ^ 64`. -/
def idToPtr (storage_id : Nat) : Nat := storage_id % 2 ^ 64

/-- `reinterpret_cast<storage_id_t>(ptr)` — a 64-bit pointer read back
as a `uint64_t`. -/
def ptrToId (p : Nat) : Nat := p % 2 ^ 64

/-- `at::DataPtr` as this module builds it: the payload pointer and the
device the allocation is tagged with.  (In the source the context pointer
equals the data pointer and the deleter is `ReportAndDelete`; both are
fixed, so only `data` and `device` vary.) -/
structure DataPtr where
  data : Nat
  device : Device
deriving DecidableEq

/-- `RemoteAllocator::allocate` (RemoteMem.cpp lines 21-42): query the
current device, mint a storage id, ask the backend to create the storage,
and on success return the id reinterpreted as the data pointer, tagged
with the remote device.  A `false` from create-storage fails the
`TORCH_CHECK`; a raising callback propagates. -/
def RemoteAllocator.allocate (b : Backend) (nbytes : Nat) :
    Except RemoteError DataPtr × List Call :=
  match b.getDevice with
  | .error e => (.error (.callbackExn e), [.getDevice])
  | .ok curr_device_idx =>
    let curr_device : Device := ⟨.privateUse1, curr_device_idx⟩
    match b.generateStorageId with
    | .error e => (.error (.callbackExn e), [.getDevice, .generateStorageId])
    | .ok raw_id =>
      -- `.cast<storage_id_t>()`: the Python integer read as a uint64_t
      let storage_id := raw_id % 2 ^ 64
      match b.createStorage storage_id nbytes curr_device_idx with
      | .error e =>
          (.error (.callbackExn e),
           [.getDevice, .generateStorageId,
            .createStorage storage_id nbytes curr_device_idx])
      | .ok success =>
          if success then
            (.ok ⟨idToPtr storage_id, curr_device⟩,
             [.getDevice, .generateStorageId,
              .createStorage storage_id nbytes curr_device_idx])
          else
            (.error (.allocationError storage_id nbytes curr_device_idx),
             [.getDevice, .generateStorageId,
              .createStorage storage_id nbytes curr_device_idx])

/-- `RemoteAllocator::copy_data` (RemoteMem.cpp lines 48-54): reinterpret
both pointers back into storage ids and delegate to the `copy_data_by_id`
callback.  No local bytes exist, so nothing else happens; a raising
callback propagates. -/
def RemoteAllocator.copy_data (b : Backend) (dest src : Nat) (count : Nat) :
    Except RemoteError Unit × List Call :=
  let dest_id := ptrToId dest
  let src_id := ptrToId src
  match b.copyDataById dest_id src_id count with
  | .error e => (.error (.callbackExn e), [.copyDataById dest_id src_id count])
  | .ok _ => (.ok (), [.copyDataById dest_id src_id count])

/-- Modelled from the spec: `ReportAndDelete<kFreeStorageMethod>` is
referenced from `RemoteMem.cpp` (lines 41, 45) but defined in repository
code not under `src/`.  Per §4.1 free and §7 FreeFailure: it reinterprets
the pointer into a handle, issues the free-storage callback, and any
failure is reported locally (logged) but never raised past the deleter
boundary.  The third component is the local log. -/
def ReportAndDelete (b : Backend) (ptr : Nat) :
    Except PyExn Unit × List Call × List String :=
  let storage_id := ptrToId ptr
  match b.freeStorage storage_id with
  | .error e =>
      (.ok (), [.freeStorage storage_id],
       ["Failed to free remote storage: " ++ e])
  | .ok _ => (.ok (), [.freeStorage storage_id], [])

/-- `RemoteAllocator::raw_deleter` (RemoteMem.cpp lines 44-46): returns
the `ReportAndDelete<kFreeStorageMethod>` function pointer. -/
def RemoteAllocator.raw_deleter : Backend → Nat →
    Except PyExn Unit × List Call × List String :=
  ReportAndDelete

/-- `validate_device_index` (RemoteMem.cpp lines 64-72): query the
device-count callback and test `0 <= index < count`; any exception from
the query is caught and turned into `false`. -/
def validate_device_index (b : Backend) (device_index : Int) : Bool :=
  match b.deviceCount with
  | .error _ => false
  | .ok device_count => device_index ≥ 0 && device_index < device_count

/-- A tensor descriptor as the host framework holds it: the storage's
opaque data pointer, the device, dtype, and the size/stride/offset
metadata.  The module only produces and consumes these (§3). -/
structure Tensor where
  dataPtr : Nat
  device : Device
  dtype : ScalarType
  size : List Int
  stride : List Int
  storage_offset : Int
deriving DecidableEq

/-- An `at::Storage` as passed to `set_`: its data pointer and device. -/
structure Storage where
  dataPtr : Nat
  device : Device
deriving DecidableEq

/-- Row-major contiguous strides for a size list, with the running
element count:  `stride i = prod (size after i)`. -/
def contiguousStridesAux : List Int → List Int × Int
  | [] => ([], 1)
  | s :: rest =>
      let (st, p) := contiguousStridesAux rest
      (p :: st, s * p)

/-- Row-major contiguous strides for a size list. -/
def contiguousStrides (size : List Int) : List Int :=
  (contiguousStridesAux size).1

/-- Strides the framework produces for a given memory format: NHWC
strides for `channelsLast` on a 4-d size, row-major otherwise. -/
def stridesForMemoryFormat (mf : MemoryFormat) (size : List Int) : List Int :=
  match mf, size with
  | .channelsLast, [_n, c, h, w] => [c * h * w, 1, w * c, c]
  | _, _ => contiguousStrides size

/-- Number of elements: the product of the dimension extents. -/
def numel (size : List Int) : Int :=
  size.foldr (· * ·) 1

/-- Modelled from the spec: `at::detail::empty_generic` is host-framework
code (not in this repository).  Per §4.3 it allocates backing bytes via
the allocator sized `size × dtype width × memory-format layout rules` and
returns a fresh descriptor with zero storage offset and format-derived
strides, on the allocation's device. -/
def empty_generic (b : Backend) (size : List Int) (dtype : ScalarType)
    (mf : MemoryFormat) : Except RemoteError Tensor × List Call :=
  let nbytes := (numel size).toNat * dtype.itemsize
  match RemoteAllocator.allocate b nbytes with
  | (.error e, tr) => (.error e, tr)
  | (.ok dp, tr) =>
      (.ok ⟨dp.data, dp.device, dtype, size, stridesForMemoryFormat mf size, 0⟩, tr)

/-- Modelled from the spec: `at::detail::empty_strided_generic` is
host-framework code.  Per §4.3 the byte extent follows the explicit
stride (the framework's storage size: `0` when any extent is `0`, else
`1 + Σ (sizeᵢ - 1) * strideᵢ` elements), and the given strides are kept. -/
def empty_strided_generic (b : Backend) (size stride : List Int)
    (dtype : ScalarType) : Except RemoteError Tensor × List Call :=
  let elems : Int :=
    if size.any (· = 0) then 0
    else 1 + ((size.zip stride).map (fun p => (p.1 - 1) * p.2)).foldr (· + ·) 0
  let nbytes := elems.toNat * dtype.itemsize
  match RemoteAllocator.allocate b nbytes with
  | (.error e, tr) => (.error e, tr)
  | (.ok dp, tr) => (.ok ⟨dp.data, dp.device, dtype, size, stride, 0⟩, tr)

/-- Device resolution in `empty_remote` (lines 84-87) and
`empty_strided_remote` (lines 120-123), identical in both: default to
remote index 0 when unspecified; coerce a foreign device type to
`PrivateUse1` keeping its index. -/
def resolve_target_device (device : Option Device) : Device :=
  let target_device := device.getD ⟨.privateUse1, 0⟩
  if target_device.type ≠ .privateUse1 then
    ⟨.privateUse1, target_device.index⟩
  else
    target_device

/-- `empty_remote` (RemoteMem.cpp lines 75-108): resolve the device,
validate its index (issuing the device-count callback), resolve dtype /
layout / memory format, check the layout is strided and pin-memory is
off, then build the tensor through `empty_generic` and the allocator.
`default_dtype` stands for `at::get_default_dtype_as_scalartype()`. -/
def empty_remote (b : Backend) (size : List Int)
    (dtype : Option ScalarType) (layout : Option Layout)
    (device : Option Device) (pin_memory : Option Bool)
    (memory_format : Option MemoryFormat) (default_dtype : ScalarType) :
    Except RemoteError Tensor × List Call :=
  let target_device := resolve_target_device device
  if ¬ validate_device_index b target_device.index then
    (.error (.invalidDeviceError target_device.index), [.deviceCount])
  else
    let resolved_dtype := dtype.getD default_dtype
    let resolved_layout := layout.getD .strided
    let resolved_memory_format := memory_format.getD .contiguous
    if resolved_layout ≠ .strided then
      (.error .unsupportedLayoutError, [.deviceCount])
    else if pin_memory.getD false then
      (.error .unsupportedFeatureError, [.deviceCount])
    else
      match empty_generic b size resolved_dtype resolved_memory_format with
      | (r, tr) => (r, .deviceCount :: tr)

/-- `empty_strided_remote` (RemoteMem.cpp lines 111-143): identical
resolution and checks, no memory-format parameter, and the explicit
strides drive the byte extent via `empty_strided_generic`. -/
def empty_strided_remote (b : Backend) (size stride : List Int)
    (dtype : Option ScalarType) (layout : Option Layout)
    (device : Option Device) (pin_memory : Option Bool)
    (default_dtype : ScalarType) :
    Except RemoteError Tensor × List Call :=
  let target_device := resolve_target_device device
  if ¬ validate_device_index b target_device.index then
    (.error (.invalidDeviceError target_device.index), [.deviceCount])
  else
    let resolved_dtype := dtype.getD default_dtype
    let resolved_layout := layout.getD .strided
    if resolved_layout ≠ .strided then
      (.error .unsupportedLayoutError, [.deviceCount])
    else if pin_memory.getD false then
      (.error .unsupportedFeatureError, [.deviceCount])
    else
      match empty_strided_generic b size stride resolved_dtype with
      | (r, tr) => (r, .deviceCount :: tr)

/-- Modelled from the spec: `at::cpu::as_strided` is host-framework code.
Per §4.4 it is a purely local descriptor transformation: a view sharing
the input's storage, with the requested size and stride, the requested
storage offset when given and the input's otherwise, touching no backend. -/
def cpu_as_strided (self : Tensor) (size stride : List Int)
    (storage_offset : Option Int) : Tensor :=
  { self with
      size := size
      stride := stride
      storage_offset := storage_offset.getD self.storage_offset }

/-- `as_strided_remote` (RemoteMem.cpp lines 146-158): check the tensor
lives on the remote device type, then delegate to the CPU (local,
non-dispatching) implementation; no backend callback is issued. -/
def as_strided_remote (self : Tensor) (size stride : List Int)
    (storage_offset : Option Int) :
    Except RemoteError Tensor × List Call :=
  if self.device.type ≠ .privateUse1 then
    (.error .preconditionError, [])
  else
    (.ok (cpu_as_strided self size stride storage_offset), [])

/-- Modelled from the spec: `at::cpu::set_` is host-framework code.  Per
§4.4 it rebinds the tensor's descriptor in place to the given
storage/offset/size/stride via the local non-dispatching path. -/
def cpu_set_ (result : Tensor) (storage : Storage) (storage_offset : Int)
    (size stride : List Int) : Tensor :=
  { result with
      dataPtr := storage.dataPtr
      device := storage.device
      size := size
      stride := stride
      storage_offset := storage_offset }

/-- `set_remote` (RemoteMem.cpp lines 161-169): forward unconditionally
to the CPU implementation — no device-type check, no backend callback. -/
def set_remote (result : Tensor) (storage : Storage) (storage_offset : Int)
    (size stride : List Int) :
    Except RemoteError Tensor × List Call :=
  (.ok (cpu_set_ result storage storage_offset size stride), [])

/-! ### Concrete backends used by the witnesses -/

/-- A backend double on which every callback succeeds: one device,
current index 0, storage ids minted as 42, create-storage succeeds. -/
def okBackend : Backend where
  getDevice := .ok 0
  generateStorageId := .ok 42
  createStorage := fun _ _ _ => .ok true
  freeStorage := fun _ => .ok ()
  copyDataById := fun _ _ _ => .ok ()
  deviceCount := .ok 1

/-- Like `okBackend` but create-storage reports failure. -/
def failCreateBackend : Backend :=
  { okBackend with createStorage := fun _ _ _ => .ok false }

/-- Like `okBackend` but the device-count callback raises. -/
def raiseCountBackend : Backend :=
  { okBackend with deviceCount := .error "device count unavailable" }

/-- Like `okBackend` but the free-storage callback raises. -/
def failFreeBackend : Backend :=
  { okBackend with freeStorage := fun _ => .error "free failed" }

/-! ### Helper lemmas -/

/-- Inversion of a successful `allocate`: recover the callback outcomes,
the exact call sequence and the returned `DataPtr`. -/
theorem allocate_ok_elim (b : Backend) (nbytes : Nat) (dp : DataPtr)
    (tr : List Call)
    (h : RemoteAllocator.allocate b nbytes = (.ok dp, tr)) :
    ∃ idx raw_id,
      b.getDevice = .ok idx ∧
      b.generateStorageId = .ok raw_id ∧
      b.createStorage (raw_id % 2 ^ 64) nbytes idx = .ok true ∧
      tr = [.getDevice, .generateStorageId,
            .createStorage (raw_id % 2 ^ 64) nbytes idx] ∧
      dp = ⟨idToPtr (raw_id % 2 ^ 64), ⟨.privateUse1, idx⟩⟩ := by
  unfold RemoteAllocator.allocate at h
  cases hg : b.getDevice with
  | error e => rw [hg] at h; simp at h
  | ok idx =>
    rw [hg] at h
    cases hs : b.generateStorageId with
    | error e => rw [hs] at h; simp at h
    | ok raw_id =>
      rw [hs] at h
      cases hc : b.createStorage (raw_id % 2 ^ 64) nbytes idx with
      | error e => simp only [hc] at h; simp at h
      | ok success =>
        simp only [hc] at h
        cases success with
        | false => simp at h
        | true =>
          simp at h
          exact ⟨idx, raw_id, rfl, rfl, hc, h.2.symm, h.1.symm⟩

/-- Evaluation of `allocate` when create-storage reports `false`. -/
theorem allocate_createFalse_eq (b : Backend) (nbytes : Nat) (idx : Int)
    (raw_id : Nat)
    (h1 : b.getDevice = .ok idx)
    (h2 : b.generateStorageId = .ok raw_id)
    (h3 : b.createStorage (raw_id % 2 ^ 64) nbytes idx = .ok false) :
    RemoteAllocator.allocate b nbytes =
      (.error (.allocationError (raw_id % 2 ^ 64) nbytes idx),
       [.getDevice, .generateStorageId,
        .createStorage (raw_id % 2 ^ 64) nbytes idx]) := by
  unfold RemoteAllocator.allocate
  rw [h1, h2]
  simp only [h3]
  simp

/-! ### Claim theorems -/

/-- Claim C1: a successful `allocate(nbytes)` first obtains the current
device index via the get-device callback, mints a StorageHandle via the
generate-storage-id callback, calls the create-storage callback with
exactly (handle, nbytes, device index), and returns that handle
reinterpreted as the opaque data reference tagged with the resolved
remote device. -/
theorem allocate_success_contract (b : Backend) (nbytes : Nat)
    (dp : DataPtr) (tr : List Call)
    (h : RemoteAllocator.allocate b nbytes = (.ok dp, tr)) :
    ∃ idx raw_id,
      b.getDevice = .ok idx ∧
      b.generateStorageId = .ok raw_id ∧
      b.createStorage (raw_id % 2 ^ 64) nbytes idx = .ok true ∧
      tr = [.getDevice, .generateStorageId,
            .createStorage (raw_id % 2 ^ 64) nbytes idx] ∧
      dp = ⟨idToPtr (raw_id % 2 ^ 64), ⟨.privateUse1, idx⟩⟩ :=
  allocate_ok_elim b nbytes dp tr h

/-- Witness for C1: the contract evaluated on `okBackend` with
`nbytes = 16`, whose storage ids are minted as 42 on device 0. -/
theorem allocate_success_contract_witness :
    ∃ idx raw_id,
      okBackend.getDevice = .ok idx ∧
      okBackend.generateStorageId = .ok raw_id ∧
      okBackend.createStorage (raw_id % 2 ^ 64) 16 idx = .ok true ∧
      [Call.getDevice, Call.generateStorageId, Call.createStorage 42 16 0] =
        [.getDevice, .generateStorageId,
         .createStorage (raw_id % 2 ^ 64) 16 idx] ∧
      (⟨42, ⟨.privateUse1, 0⟩⟩ : DataPtr) =
        ⟨idToPtr (raw_id % 2 ^ 64), ⟨.privateUse1, idx⟩⟩ :=
  allocate_success_contract okBackend 16 ⟨42, ⟨.privateUse1, 0⟩⟩
    [.getDevice, .generateStorageId, .createStorage 42 16 0] rfl

/-- Claim C2: the opaque data reference is bit-identical to the
StorageHandle — reinterpretation round-trips every 64-bit handle; a
successful `allocate` stores the minted handle itself in the data
pointer; and `copy_data` issues exactly one `copy_data_by_id` callback
carrying (destHandle, srcHandle, byteCount), which is its only effect
(the model has no local memory for it to move). -/
theorem opaque_ref_roundtrip :
    (∀ h : Nat, h < 2 ^ 64 → ptrToId (idToPtr h) = h) ∧
    (∀ (b : Backend) (nbytes : Nat) (dp : DataPtr) (tr : List Call)
        (raw_id : Nat),
      RemoteAllocator.allocate b nbytes = (.ok dp, tr) →
      b.generateStorageId = .ok raw_id →
      dp.data = raw_id % 2 ^ 64) ∧
    (∀ (b : Backend) (dest src count : Nat),
      (RemoteAllocator.copy_data b dest src count).2 =
        [.copyDataById (ptrToId dest) (ptrToId src) count]) := by
  refine ⟨fun h hh => ?_, fun b nbytes dp tr raw_id ha hs => ?_,
    fun b dest src count => ?_⟩
  · rw [idToPtr, Nat.mod_eq_of_lt hh, ptrToId, Nat.mod_eq_of_lt hh]
  · obtain ⟨idx, raw_id2, _, hs2, _, _, hdp⟩ :=
      allocate_ok_elim b nbytes dp tr ha
    rw [hs] at hs2
    cases hs2
    rw [hdp]
    exact Nat.mod_mod_of_dvd raw_id dvd_rfl
  · cases hc : b.copyDataById (ptrToId dest) (ptrToId src) count <;>
      simp [RemoteAllocator.copy_data, hc]

/-- Witness for C2: round-tripping handle 42, and a concrete `copy_data`
on `okBackend` forwarding pointers 42 and 7 with 16 bytes. -/
theorem opaque_ref_roundtrip_witness :
    ptrToId (idToPtr 42) = 42 ∧
    (RemoteAllocator.copy_data okBackend 42 7 16).2 =
      [.copyDataById 42 7 16] :=
  ⟨opaque_ref_roundtrip.1 42 (by decide),
   opaque_ref_roundtrip.2.2 okBackend 42 7 16⟩

/-- Claim C3: when create-storage reports failure, `allocate` fails with
the allocation `TORCH_CHECK` error, propagated to the caller, and the
diagnostic message pieces include the minted handle, the byte count, and
the device index. -/
theorem allocate_failure_diagnostic (b : Backend) (nbytes : Nat)
    (idx : Int) (raw_id : Nat)
    (h1 : b.getDevice = .ok idx)
    (h2 : b.generateStorageId = .ok raw_id)
    (h3 : b.createStorage (raw_id % 2 ^ 64) nbytes idx = .ok false) :
    (RemoteAllocator.allocate b nbytes).1 =
      .error (.allocationError (raw_id % 2 ^ 64) nbytes idx) ∧
    toString (raw_id % 2 ^ 64) ∈
      torchCheckMsg (.allocationError (raw_id % 2 ^ 64) nbytes idx) ∧
    toString nbytes ∈
      torchCheckMsg (.allocationError (raw_id % 2 ^ 64) nbytes idx) ∧
    toString idx ∈
      torchCheckMsg (.allocationError (raw_id % 2 ^ 64) nbytes idx) := by
  refine ⟨?_, by simp [torchCheckMsg], by simp [torchCheckMsg],
    by simp [torchCheckMsg]⟩
  rw [allocate_createFalse_eq b nbytes idx raw_id h1 h2 h3]

/-- Witness for C3: `failCreateBackend` refuses creation of 8 bytes for
handle 42 on device 0 and the error carries those values. -/
theorem allocate_failure_diagnostic_witness :
    (RemoteAllocator.allocate failCreateBackend 8).1 =
      .error (.allocationError 42 8 0) ∧
    toString 42 ∈ torchCheckMsg (.allocationError 42 8 0) ∧
    toString 8 ∈ torchCheckMsg (.allocationError 42 8 0) ∧
    toString (0 : Int) ∈ torchCheckMsg (.allocationError 42 8 0) :=
  allocate_failure_diagnostic failCreateBackend 8 0 42 rfl rfl rfl

/-- Claim C4: `validate_device_index` returns `true` exactly when the
device-count callback answers with a count `c` and `0 ≤ index < c`, and
returns `false` (instead of propagating) whenever the callback raises. -/
theorem validate_device_index_spec (b : Backend) (idx : Int) :
    (validate_device_index b idx = true ↔
      ∃ c, b.deviceCount = .ok c ∧ 0 ≤ idx ∧ idx < c) ∧
    (∀ e, b.deviceCount = .error e → validate_device_index b idx = false) := by
  constructor
  · cases hd : b.deviceCount with
    | error e => simp [validate_device_index, hd]
    | ok c =>
      simp [validate_device_index, hd]
  · intro e he
    simp [validate_device_index, he]

/-- Witness for C4: index 0 is valid on `okBackend` (count 1) and
invalid on `raiseCountBackend`, whose device-count callback raises. -/
theorem validate_device_index_spec_witness :
    validate_device_index okBackend 0 = true ∧
    validate_device_index raiseCountBackend 0 = false :=
  ⟨(validate_device_index_spec okBackend 0).1.mpr
      ⟨1, rfl, by decide, by decide⟩,
   (validate_device_index_spec raiseCountBackend 0).2
      "device count unavailable" rfl⟩

/-- Counterexample for C5: the layout and pin-memory checks do NOT fire
regardless of the other parameters.  With device index 5 on a one-device
backend and sparse layout, `empty_remote` fails with the invalid-device
error, not the layout error (validation runs first); and with a valid
device, sparse layout and pinMemory = true it fails with the layout
error, not the pin-memory error (the layout check runs first). -/
theorem empty_remote_checks_not_unconditional :
    (empty_remote okBackend [1] none (some .sparse) (some ⟨.privateUse1, 5⟩)
        none none .float32).1 = .error (.invalidDeviceError 5) ∧
    (empty_remote okBackend [1] none (some .sparse) (some ⟨.privateUse1, 5⟩)
        none none .float32).1 ≠ .error .unsupportedLayoutError ∧
    (empty_remote okBackend [1] none (some .sparse) (some ⟨.privateUse1, 0⟩)
        (some true) none .float32).1 = .error .unsupportedLayoutError ∧
    (empty_remote okBackend [1] none (some .sparse) (some ⟨.privateUse1, 0⟩)
        (some true) none .float32).1 ≠ .error .unsupportedFeatureError := by
  refine ⟨rfl, fun h => ?_, rfl, fun h => ?_⟩
  · exact absurd
      (show (Except.error (RemoteError.invalidDeviceError 5) :
          Except RemoteError Tensor) = .error .unsupportedLayoutError from h)
      (by simp)
  · exact absurd
      (show (Except.error RemoteError.unsupportedLayoutError :
          Except RemoteError Tensor) = .error .unsupportedFeatureError from h)
      (by simp)

/-- Claim C5 as amended: provided the resolved device index passes
validation, `empty_remote` with a resolved non-strided layout fails with
the unsupported-layout error regardless of the remaining parameters; and
provided additionally the resolved layout is strided, `empty_remote`
with pinMemory resolving true fails with the unsupported-feature
error. -/
theorem empty_remote_checks_after_validation (b : Backend)
    (size : List Int) (dtype : Option ScalarType) (layout : Option Layout)
    (device : Option Device) (pin_memory : Option Bool)
    (memory_format : Option MemoryFormat) (default_dtype : ScalarType)
    (hv : validate_device_index b (resolve_target_device device).index = true) :
    (layout.getD .strided ≠ .strided →
      (empty_remote b size dtype layout device pin_memory memory_format
        default_dtype).1 = .error .unsupportedLayoutError) ∧
    (layout.getD .strided = .strided → pin_memory.getD false = true →
      (empty_remote b size dtype layout device pin_memory memory_format
        default_dtype).1 = .error .unsupportedFeatureError) := by
  constructor
  · intro hl
    simp [empty_remote, hv, hl]
  · intro hl hp
    simp [empty_remote, hv, hl, hp]

/-- Witness for the amended C5: on `okBackend` with the default device,
sparse layout yields the layout error; pinMemory = true with default
layout yields the pin-memory error. -/
theorem empty_remote_checks_after_validation_witness :
    (empty_remote okBackend [1] none (some .sparse) none none none
        .float32).1 = .error .unsupportedLayoutError ∧
    (empty_remote okBackend [1] none none none (some true) none
        .float32).1 = .error .unsupportedFeatureError :=
  ⟨(empty_remote_checks_after_validation okBackend [1] none (some .sparse)
      none none none .float32 rfl).1 (by decide),
   (empty_remote_checks_after_validation okBackend [1] none none
      none (some true) none .float32 rfl).2 rfl rfl⟩

/-- Claim C6: `as_strided_remote` fails with the precondition error on
every tensor whose device type is not the remote type; on a remote
tensor it returns a descriptor sharing the input's storage pointer,
device and dtype, carrying the requested size, stride and storage
offset (defaulting to the input's), and issues zero backend calls. -/
theorem as_strided_local_view (self : Tensor) (size stride : List Int)
    (storage_offset : Option Int) :
    (self.device.type ≠ .privateUse1 →
      as_strided_remote self size stride storage_offset =
        (.error .preconditionError, [])) ∧
    (self.device.type = .privateUse1 →
      as_strided_remote self size stride storage_offset =
        (.ok ⟨self.dataPtr, self.device, self.dtype, size, stride,
              storage_offset.getD self.storage_offset⟩, [])) := by
  constructor
  · intro h
    simp [as_strided_remote, h]
  · intro h
    simp [as_strided_remote, h, cpu_as_strided]

/-- Witness for C6: a CPU tensor is rejected; a remote tensor is
re-viewed in place with the requested metadata and an empty call list. -/
theorem as_strided_local_view_witness :
    as_strided_remote ⟨42, ⟨.cpu, 0⟩, .float32, [4, 4], [4, 1], 0⟩
        [16] [1] none = (.error .preconditionError, []) ∧
    as_strided_remote ⟨42, ⟨.privateUse1, 0⟩, .float32, [4, 4], [4, 1], 0⟩
        [16] [1] (some 2) =
      (.ok ⟨42, ⟨.privateUse1, 0⟩, .float32, [16], [1], 2⟩, []) :=
  ⟨(as_strided_local_view ⟨42, ⟨.cpu, 0⟩, .float32, [4, 4], [4, 1], 0⟩
      [16] [1] none).1 (by decide),
   (as_strided_local_view ⟨42, ⟨.privateUse1, 0⟩, .float32, [4, 4], [4, 1], 0⟩
      [16] [1] (some 2)).2 rfl⟩

/-- Claim C7: in both factory entry points, an unspecified device
resolves to the remote type at index 0; a device of a foreign type is
coerced to the remote type keeping its index; and when validation of the
resolved index fails, the call fails with the invalid-device error
naming that index. -/
theorem device_resolution_and_validation :
    (resolve_target_device none = ⟨.privateUse1, 0⟩) ∧
    (∀ d : Device, d.type ≠ .privateUse1 →
      resolve_target_device (some d) = ⟨.privateUse1, d.index⟩) ∧
    (∀ (b : Backend) (size : List Int) (dtype : Option ScalarType)
        (layout : Option Layout) (device : Option Device)
        (pin_memory : Option Bool) (memory_format : Option MemoryFormat)
        (default_dtype : ScalarType),
      validate_device_index b (resolve_target_device device).index = false →
      (empty_remote b size dtype layout device pin_memory memory_format
        default_dtype).1 =
        .error (.invalidDeviceError (resolve_target_device device).index)) ∧
    (∀ (b : Backend) (size stride : List Int) (dtype : Option ScalarType)
        (layout : Option Layout) (device : Option Device)
        (pin_memory : Option Bool) (default_dtype : ScalarType),
      validate_device_index b (resolve_target_device device).index = false →
      (empty_strided_remote b size stride dtype layout device pin_memory
        default_dtype).1 =
        .error (.invalidDeviceError (resolve_target_device device).index)) := by
  refine ⟨rfl, fun d hd => ?_,
    fun b size dtype layout device pin_memory memory_format default_dtype hv => ?_,
    fun b size stride dtype layout device pin_memory default_dtype hv => ?_⟩
  · simp [resolve_target_device, hd]
  · simp [empty_remote, hv]
  · simp [empty_strided_remote, hv]

/-- Witness for C7: a CUDA device at index 3 is coerced to remote index
3, and index 5 on a one-device backend makes both factories fail naming
index 5. -/
theorem device_resolution_and_validation_witness :
    resolve_target_device (some ⟨.cuda, 3⟩) = ⟨.privateUse1, 3⟩ ∧
    (empty_remote okBackend [1] none none (some ⟨.privateUse1, 5⟩) none
        none .float32).1 = .error (.invalidDeviceError 5) ∧
    (empty_strided_remote okBackend [1] [1] none none
        (some ⟨.privateUse1, 5⟩) none .float32).1 =
      .error (.invalidDeviceError 5) :=
  ⟨device_resolution_and_validation.2.1 ⟨.cuda, 3⟩ (by decide),
   device_resolution_and_validation.2.2.1 okBackend [1] none none
     (some ⟨.privateUse1, 5⟩) none none .float32 rfl,
   device_resolution_and_validation.2.2.2 okBackend [1] [1] none none
     (some ⟨.privateUse1, 5⟩) none .float32 rfl⟩

/-- Claim C8: the deleter installed by `raw_deleter` never raises past
the deleter boundary — for every backend outcome it returns normally,
issues exactly the free-storage callback for the reinterpreted handle,
and when the callback raises it reports the failure locally (nonempty
log) instead of propagating. -/
theorem raw_deleter_never_raises (b : Backend) (ptr : Nat) :
    (RemoteAllocator.raw_deleter b ptr).1 = .ok () ∧
    (RemoteAllocator.raw_deleter b ptr).2.1 = [.freeStorage (ptrToId ptr)] ∧
    (∀ e, b.freeStorage (ptrToId ptr) = .error e →
      (RemoteAllocator.raw_deleter b ptr).2.2 ≠ []) := by
  refine ⟨?_, ?_,
    fun e he => by simp [RemoteAllocator.raw_deleter, ReportAndDelete, he]⟩
  · cases hf : b.freeStorage (ptrToId ptr) <;>
      simp [RemoteAllocator.raw_deleter, ReportAndDelete, hf]
  · cases hf : b.freeStorage (ptrToId ptr) <;>
      simp [RemoteAllocator.raw_deleter, ReportAndDelete, hf]

/-- Witness for C8: on `failFreeBackend`, whose free-storage callback
raises, the deleter still returns normally and logs the failure. -/
theorem raw_deleter_never_raises_witness :
    (RemoteAllocator.raw_deleter failFreeBackend 42).1 = .ok () ∧
    (RemoteAllocator.raw_deleter failFreeBackend 42).2.2 ≠ [] :=
  ⟨(raw_deleter_never_raises failFreeBackend 42).1,
   (raw_deleter_never_raises failFreeBackend 42).2.2 "free failed" rfl⟩

/-- Claim C9: `set_remote` performs no device-type precondition check —
for every tensor, whatever its device type, it forwards unconditionally
to the local CPU `set_` implementation with no backend call, and never
fails (in particular never with the precondition error `as_strided`
uses). -/
theorem set_remote_unconditional (result : Tensor) (storage : Storage)
    (storage_offset : Int) (size stride : List Int) :
    set_remote result storage storage_offset size stride =
      (.ok (cpu_set_ result storage storage_offset size stride), []) ∧
    ∀ e, (set_remote result storage storage_offset size stride).1 ≠
      .error e := by
  refine ⟨rfl, fun e h => ?_⟩
  simp [set_remote] at h

/-- Witness for C9: a CPU-device tensor is rebound without any error. -/
theorem set_remote_unconditional_witness :
    set_remote ⟨42, ⟨.cpu, 0⟩, .float32, [4], [1], 0⟩ ⟨7, ⟨.privateUse1, 0⟩⟩
        1 [2] [1] =
      (.ok (cpu_set_ ⟨42, ⟨.cpu, 0⟩, .float32, [4], [1], 0⟩
        ⟨7, ⟨.privateUse1, 0⟩⟩ 1 [2] [1]), []) ∧
    ∀ e, (set_remote ⟨42, ⟨.cpu, 0⟩, .float32, [4], [1], 0⟩
        ⟨7, ⟨.privateUse1, 0⟩⟩ 1 [2] [1]).1 ≠ .error e :=
  set_remote_unconditional ⟨42, ⟨.cpu, 0⟩, .float32, [4], [1], 0⟩
    ⟨7, ⟨.privateUse1, 0⟩⟩ 1 [2] [1]

/-- Claim C10: when create-storage reports failure, `allocate` fails only
after the handle was minted — the call sequence is exactly get-device,
generate-storage-id, create-storage — and no free-storage (nor any
other cleanup) call is ever issued for the abandoned handle. -/
theorem allocate_failure_no_cleanup (b : Backend) (nbytes : Nat)
    (idx : Int) (raw_id : Nat)
    (h1 : b.getDevice = .ok idx)
    (h2 : b.generateStorageId = .ok raw_id)
    (h3 : b.createStorage (raw_id % 2 ^ 64) nbytes idx = .ok false) :
    RemoteAllocator.allocate b nbytes =
      (.error (.allocationError (raw_id % 2 ^ 64) nbytes idx),
       [.getDevice, .generateStorageId,
        .createStorage (raw_id % 2 ^ 64) nbytes idx]) ∧
    (∀ h, Call.freeStorage h ∉ (RemoteAllocator.allocate b nbytes).2) ∧
    (∀ d s c, Call.copyDataById d s c ∉
      (RemoteAllocator.allocate b nbytes).2) := by
  have he := allocate_createFalse_eq b nbytes idx raw_id h1 h2 h3
  refine ⟨he, fun h => ?_, fun d s c => ?_⟩ <;> rw [he] <;> simp

/-- Witness for C10: the failing allocation of 8 bytes on
`failCreateBackend` mints handle 42 and issues no cleanup call. -/
theorem allocate_failure_no_cleanup_witness :
    RemoteAllocator.allocate failCreateBackend 8 =
      (.error (.allocationError 42 8 0),
       [.getDevice, .generateStorageId, .createStorage 42 8 0]) ∧
    Call.freeStorage 42 ∉ (RemoteAllocator.allocate failCreateBackend 8).2 :=
  ⟨(allocate_failure_no_cleanup failCreateBackend 8 0 42 rfl rfl rfl).1,
   (allocate_failure_no_cleanup failCreateBackend 8 0 42 rfl rfl rfl).2.1 42⟩

end RemoteMem
